import Mathlib

/-!
Verification development for the petiteplatypus vault scaffolding tool.

The Go program (src/main.go; variants src/unnamed/part_000 and
src/unnamed/part_001) creates an Obsidian vault directory, writes fixed
template documents into it, and registers the vault in the global
`obsidian.json` registry file.  The definitions below are a shallow
embedding of that program: filesystem and OS-call outcomes are passed in
explicitly, Go maps become association lists, and JSON documents are an
explicit syntax tree (the byte-level JSON grammar belongs to Go's
`encoding/json` and is abstracted by `FileData`: bytes either parse to a
document or do not).
-/

set_option autoImplicit false

namespace PetitePlatypus

/-- Go struct `VaultConfig` (src/main.go lines 18-22, identical in
src/unnamed/part_000 lines 23-27 and src/unnamed/part_001 lines 15-19):
one registry record, JSON tags `path`, `ts`, `open`. -/
structure VaultConfig where
  Path : String
  Ts : Int
  Open : Bool
deriving Repr, DecidableEq

/-- Go struct `ObsidianConfig` (src/main.go lines 24-27) as it stands right
after `json.Unmarshal` or as the zero value: both maps may still be nil,
modelled by `none`.  A present map (possibly empty) is `some` of an
association list with unique keys. -/
structure ObsidianConfig where
  Vaults : Option (List (String × VaultConfig))
  OpenSchemes : Option (List (String × Bool))
deriving Repr, DecidableEq

/-- JSON documents, as produced by Go's `encoding/json` parser.  Numbers are
restricted to integers: every number the program reads or writes is an
`int64` field, and a fractional number in a `ts` position makes
`json.Unmarshal` fail, which `decodeVaultConfig` mirrors by rejecting
non-`num` values. -/
inductive Json where
  | null
  | bool (b : Bool)
  | num (n : Int)
  | str (s : String)
  | arr (elems : List Json)
  | obj (fields : List (String × Json))

/-- Lookup in the association-list representation of a Go map. -/
def mapLookup {α : Type} (k : String) (m : List (String × α)) : Option α :=
  (m.find? (fun p => p.1 == k)).map (fun p => p.2)

/-- Go map assignment `m[k] = v` on the association-list representation:
any old binding of `k` is removed, the new binding appended.  Keeps keys
unique. -/
def mapInsert {α : Type} (k : String) (v : α) (m : List (String × α)) :
    List (String × α) :=
  m.filter (fun p => p.1 != k) ++ [(k, v)]

/-- One field of a JSON object being unmarshalled into `VaultConfig`
(Go `json.Unmarshal` semantics): a matching tag with a value of the right
type sets the field, an explicit `null` leaves the field as it was, a
mismatched type is an error, an unknown tag is ignored. -/
def applyVaultField (r : VaultConfig) (field : String × Json) :
    Option VaultConfig :=
  if field.1 = "path" then
    match field.2 with
    | .str s => some { r with Path := s }
    | .null => some r
    | _ => none
  else if field.1 = "ts" then
    match field.2 with
    | .num n => some { r with Ts := n }
    | .null => some r
    | _ => none
  else if field.1 = "open" then
    match field.2 with
    | .bool b => some { r with Open := b }
    | .null => some r
    | _ => none
  else some r

/-- `json.Unmarshal` of one JSON value into a Go `VaultConfig`: `null`
leaves the zero value, an object is folded field by field (a repeated tag
overwrites, last occurrence wins), anything else is an error. -/
def decodeVaultConfig : Json → Option VaultConfig
  | .null => some ⟨"", 0, false⟩
  | .obj fields => fields.foldlM applyVaultField ⟨"", 0, false⟩
  | _ => none

/-- One entry of the JSON object decoded into the `vaults` map: the value
must decode as a `VaultConfig`, and the binding is stored with Go-map
semantics (a duplicate key keeps the last occurrence). -/
def applyVaultEntry (m : List (String × VaultConfig)) (field : String × Json) :
    Option (List (String × VaultConfig)) :=
  match decodeVaultConfig field.2 with
  | none => none
  | some r => some (mapInsert field.1 r m)

/-- One entry of the JSON object decoded into the `openSchemes` map: the
value must be a boolean (`null` stores the zero value `false`, anything
else is an error). -/
def applySchemeField (m : List (String × Bool)) (field : String × Json) :
    Option (List (String × Bool)) :=
  match field.2 with
  | .bool b => some (mapInsert field.1 b m)
  | .null => some (mapInsert field.1 false m)
  | _ => none

/-- One top-level field of the registry document unmarshalled into
`ObsidianConfig`: `vaults` and `openSchemes` must be objects (or `null`,
which leaves the map nil); a mismatched type fails; unknown fields are
ignored. -/
def applyConfigField (c : ObsidianConfig) (field : String × Json) :
    Option ObsidianConfig :=
  if field.1 = "vaults" then
    match field.2 with
    | .null => some c
    | .obj entries =>
      match entries.foldlM applyVaultEntry (c.Vaults.getD []) with
      | none => none
      | some m => some { c with Vaults := some m }
    | _ => none
  else if field.1 = "openSchemes" then
    match field.2 with
    | .null => some c
    | .obj entries =>
      match entries.foldlM applySchemeField (c.OpenSchemes.getD []) with
      | none => none
      | some m => some { c with OpenSchemes := some m }
    | _ => none
  else some c

/-- `json.Unmarshal(data, &config)` for `config : ObsidianConfig` starting
from the zero value (src/main.go line 459): top-level `null` leaves the
zero value, a top-level object is folded field by field, any other
document shape is an unmarshalling error. -/
def decodeConfig : Json → Option ObsidianConfig
  | .null => some ⟨none, none⟩
  | .obj fields => fields.foldlM applyConfigField ⟨none, none⟩
  | _ => none

/-- `json.Marshal` of one `VaultConfig` record. -/
def encodeVaultConfig (r : VaultConfig) : Json :=
  .obj [("path", .str r.Path), ("ts", .num r.Ts), ("open", .bool r.Open)]

/-- `json.MarshalIndent(config, "", "  ")` of the full registry, at the
document level (src/main.go line 495).  At this point both maps are
non-nil, so both fields are emitted as objects.  Go emits map keys in
sorted order; key order inside a JSON object is semantically void and is
not modelled (the association list is emitted in its own order). -/
def encodeConfig (vaults : List (String × VaultConfig))
    (schemes : List (String × Bool)) : Json :=
  .obj [("vaults", .obj (vaults.map (fun p => (p.1, encodeVaultConfig p.2)))),
        ("openSchemes", .obj (schemes.map (fun p => (p.1, Json.bool p.2))))]

/-- Contents of the registry file, abstracting the byte level: either
bytes that parse as a JSON document (carrying the document) or bytes that
do not (`invalid`, carrying the raw text). -/
inductive FileData where
  | json (doc : Json)
  | invalid (raw : String)

/-- The byte-level JSON parse step of `json.Unmarshal`. -/
def parseFile : FileData → Option Json
  | .json doc => some doc
  | .invalid _ => none

/-- Full `json.Unmarshal` of the registry file's bytes into
`ObsidianConfig`: parse, then decode. -/
def decodeFile (d : FileData) : Option ObsidianConfig :=
  match parseFile d with
  | none => none
  | some doc => decodeConfig doc

/-- Outcomes of the OS calls `updateGlobalConfig` makes, injected as an
explicit environment (spec §9 design note on injectable capabilities):
`os.UserConfigDir`, `os.MkdirAll` on the registry's parent directory,
whether `os.ReadFile` fails with a non-NotExist error, and whether
`os.WriteFile` succeeds. -/
structure RegistryEnv where
  userConfigDir : Except String String
  mkdir : Except String Unit
  readIoError : Bool
  writeOk : Bool

/-- The registry file's state: `none` when the file is absent. -/
structure RegistryState where
  file : Option FileData

/-- Error sites of `updateGlobalConfig`, named after the spec's taxonomy
(§7); each corresponds to one `fmt.Errorf` wrap site in the source.
`RegistrySerializeError` has no constructor: `json.MarshalIndent` of these
in-memory maps cannot fail, matching the spec's "should be unreachable". -/
inductive RegError where
  | configDirUnavailable
  | directoryCreateError
  | registryCorrupt
  | registryReadError
  | registryWriteError
deriving Repr, DecidableEq

/-- Spec-facing message of each registry error, from the `fmt.Errorf`
context strings in src/main.go lines 438-505. -/
def RegError.message : RegError → String
  | .configDirUnavailable => "failed to get user config directory"
  | .directoryCreateError => "failed to create obsidian config directory"
  | .registryCorrupt => "failed to parse existing config"
  | .registryReadError => "failed to read config file"
  | .registryWriteError => "failed to write config file"

/-- Default `openSchemes` map installed when the parsed map is nil
(src/main.go lines 476-482). -/
def defaultOpenSchemes : List (String × Bool) :=
  [("vscode", true), ("chrome-extension", true)]

/-- The timestamp literal every variant stores in a new record
(src/main.go line 488, src/unnamed/part_000 line 274,
src/unnamed/part_001 line 418: `Ts: 1757173820641`). -/
def tsLiteral : Int := 1757173820641

/-- The record inserted for the new vault (src/main.go lines 486-490). -/
def newRecord (vaultPath : String) : VaultConfig :=
  ⟨vaultPath, tsLiteral, true⟩

/-- Nil-map initialization of the vault map (src/main.go lines 472-475). -/
def normalizeVaults (c : ObsidianConfig) : List (String × VaultConfig) :=
  c.Vaults.getD []

/-- Nil-map initialization of the scheme map (src/main.go lines 476-482). -/
def normalizeSchemes (c : ObsidianConfig) : List (String × Bool) :=
  c.OpenSchemes.getD defaultOpenSchemes

/-- `updateGlobalConfig(vaultPath, vaultID)` (src/main.go lines 433-510,
identical logic in src/unnamed/part_000 lines 219-296 and
src/unnamed/part_001 lines 381-433): resolve the user config directory,
ensure the registry's parent directory, read the prior registry (absent
file means the zero-value config; unparsable bytes abort), nil-initialize
the two maps, insert the new record, marshal, and overwrite the file.
Returns the call's outcome and the registry file's state after the call;
every error path returns before `os.WriteFile`, leaving the file as it
was. -/
def updateGlobalConfig (env : RegistryEnv) (vaultPath vaultID : String)
    (st : RegistryState) : Except RegError Unit × RegistryState :=
  match env.userConfigDir with
  | .error _ => (.error .configDirUnavailable, st)
  | .ok _ =>
    match env.mkdir with
    | .error _ => (.error .directoryCreateError, st)
    | .ok _ =>
      if env.readIoError then (.error .registryReadError, st)
      else
        match st.file with
        | some d =>
          match decodeFile d with
          | none => (.error .registryCorrupt, st)
          | some config =>
            let vaults :=
              mapInsert vaultID (newRecord vaultPath) (normalizeVaults config)
            let schemes := normalizeSchemes config
            let written := FileData.json (encodeConfig vaults schemes)
            if env.writeOk then (.ok (), ⟨some written⟩)
            else (.error .registryWriteError, st)
        | none =>
          let config : ObsidianConfig := ⟨none, none⟩
          let vaults :=
            mapInsert vaultID (newRecord vaultPath) (normalizeVaults config)
          let schemes := normalizeSchemes config
          let written := FileData.json (encodeConfig vaults schemes)
          if env.writeOk then (.ok (), ⟨some written⟩)
          else (.error .registryWriteError, st)

/-- The three source files of the repository that implement the tool. -/
inductive Variant where
  | mainGo
  | part000
  | part001
deriving Repr, DecidableEq

/-- The `registeredAt` (`Ts`) value each variant stores for a vault being
registered, as a function of the actual current time `now`.  Translated
from the insertion sites: src/main.go line 488, src/unnamed/part_000
line 274, src/unnamed/part_001 line 418 all write the literal
`1757173820641` ("Using timestamp from example") and use no clock. -/
def registeredAtOf : Variant → Int → Int
  | .mainGo, _ => 1757173820641
  | .part000, _ => 1757173820641
  | .part001, _ => 1757173820641

/-- One lowercase hexadecimal digit character for a value below 16, as
emitted by Go's `%x` verb. -/
def hexDigit (n : Nat) : Char :=
  if n < 10 then Char.ofNat (48 + n) else Char.ofNat (87 + n)

/-- The character sequence `fmt.Sprintf("%x", bytes)` produces for a byte
slice: two lowercase hex digits per byte, high nibble first, no
separators, zero-padded per byte. -/
def hexBytes : List Nat → List Char
  | [] => []
  | b :: bs => hexDigit (b / 16) :: hexDigit (b % 16) :: hexBytes bs

/-- `fmt.Sprintf("%x", bytes)` (src/main.go line 151). -/
def hexEncode (bs : List Nat) : String :=
  String.mk (hexBytes bs)

/-- The 8-byte buffer after `file.Read(bytes)` returned `n` bytes without
error: the buffer starts as 8 zero bytes and the read overwrites the
first `n` (src/main.go lines 135 and 145).  `delivered` is what the read
placed in the buffer, so `n = delivered.length ≤ 8`. -/
def bufferAfterRead (delivered : List Nat) : List Nat :=
  delivered.take 8 ++ List.replicate (8 - (delivered.take 8).length) 0

/-- `generateVaultID` of src/main.go lines 132-154 (same logic in
src/unnamed/part_001 lines 97-112): open `/dev/urandom`, call
`file.Read(bytes)` once, and hex-encode the buffer.  The byte count
returned by `Read` is discarded (`_, err = file.Read(bytes)`), so a short
read that reports no error still yields an ID from the partially
overwritten buffer. -/
def generateVaultIDUrandom (openOk : Bool) (readErr : Bool)
    (delivered : List Nat) : Except String String :=
  if !openOk then .error ("open /dev/urandom: no such file or directory")
  else if readErr then .error ("read /dev/urandom: input/output error")
  else .ok (hexEncode (bufferAfterRead delivered))

/-- `generateVaultID` of src/unnamed/part_000 lines 137-150: `crypto/rand`'s
`rand.Read(bytes)` either fills all 8 bytes or reports an error
(`io.ReadFull` semantics), injected here as `randRead`; an error is
wrapped, success hex-encodes the 8 bytes. -/
def generateVaultIDRand (randRead : Except String (List Nat)) :
    Except String String :=
  match randRead with
  | .error e => .error ("failed to generate random bytes: " ++ e)
  | .ok bs => .ok (hexEncode bs)

/-- Recognizer for the characters `%x` can emit: `0`-`9` and `a`-`f`. -/
def isLowerHexDigit (c : Char) : Bool :=
  (48 ≤ c.toNat && c.toNat ≤ 57) || (97 ≤ c.toNat && c.toNat ≤ 102)

/-- The filesystem as the program observes it: file path to file content.
Directories are implicit (`os.MkdirAll` outcomes are injected through the
environment), and the program never deletes a file. -/
abbrev FileSys : Type := List (String × String)

/-- `filepath.Join(dir, name)` for a normalized `dir` without trailing
separator, as produced by `filepath.Abs`. -/
def joinPath (dir name : String) : String :=
  dir ++ "/" ++ name

/-- The loop shared by `createObsidianFiles` and `createInitialFiles`
(src/unnamed/part_000 lines 163-217): for each file name, load the
template blob `templates/<name>` from the template source (`none` models
`loadEmbeddedTemplate` failing, a fatal load error), then write it with
`os.WriteFile`, fully overwriting any file of the same name; `wf` injects
per-path write failures.  On any error the loop stops, keeping the files
already written (no rollback).  src/main.go lines 156-431 inline the
blobs instead of loading them, which this covers with a total `tmpl`;
iteration is in the listed name order (Go map iteration order is
unspecified, and the writes commute: distinct names). -/
def writeTemplateFiles (tmpl : String → Option String) (wf : String → Bool)
    (dir : String) : List String → FileSys → Except String Unit × FileSys
  | [], fs => (.ok (), fs)
  | name :: rest, fs =>
    match tmpl ("templates/" ++ name) with
    | none =>
      (.error ("failed to read embedded template file templates/" ++ name), fs)
    | some content =>
      if wf (joinPath dir name) then (.error ("failed to write " ++ name), fs)
      else
        writeTemplateFiles tmpl wf dir rest
          (mapInsert (joinPath dir name) content fs)

/-- The five configuration documents written into the hidden `.obsidian`
directory (src/unnamed/part_000 lines 165-171, src/main.go lines
158-393). -/
def obsidianTemplateNames : List String :=
  ["app.json", "appearance.json", "core-plugins.json", "graph.json",
   "workspace.json"]

/-- `createObsidianFiles(obsidianDir)` (src/unnamed/part_000 lines
163-191, src/main.go lines 156-407). -/
def createObsidianFiles (tmpl : String → Option String) (wf : String → Bool)
    (obsidianDir : String) (fs : FileSys) : Except String Unit × FileSys :=
  writeTemplateFiles tmpl wf obsidianDir obsidianTemplateNames fs

/-- `createInitialFiles(vaultPath)` (src/unnamed/part_000 lines 193-217,
src/main.go lines 409-431): the one starter document. -/
def createInitialFiles (tmpl : String → Option String) (wf : String → Bool)
    (vaultPath : String) (fs : FileSys) : Except String Unit × FileSys :=
  writeTemplateFiles tmpl wf vaultPath ["Welcome.md"] fs

/-- The phases of `generateVault`, in source order (src/main.go lines
61-130). -/
inductive Phase where
  | resolvePath
  | mkdirVault
  | mkdirObsidian
  | genVaultId
  | obsidianFiles
  | initialFiles
  | globalConfig
deriving Repr, DecidableEq

/-- The order in which `generateVault` runs its phases. -/
def phaseOrder : List Phase :=
  [.resolvePath, .mkdirVault, .mkdirObsidian, .genVaultId, .obsidianFiles,
   .initialFiles, .globalConfig]

/-- The `fmt.Errorf` context each phase wraps its error with
(src/main.go lines 71-121). -/
def phaseContext : Phase → String
  | .resolvePath => "failed to get absolute path"
  | .mkdirVault => "failed to create vault directory"
  | .mkdirObsidian => "failed to create .obsidian directory"
  | .genVaultId => "failed to generate vault ID"
  | .obsidianFiles => "failed to create obsidian config files"
  | .initialFiles => "failed to create initial files"
  | .globalConfig => "failed to update global config"

/-- A terminal error as `generateVault` reports it: the failing phase's
context string wrapping the underlying error's message
(`fmt.Errorf("...: %w", err)`). -/
structure WrappedError where
  context : String
  inner : String
deriving Repr, DecidableEq

/-- Outcomes of the OS calls `generateVault` itself makes, injected as an
explicit environment: `filepath.Abs` of the argument, the two
`os.MkdirAll` calls, `generateVaultID`'s outcome, the template source,
per-path write failures, and the registry environment. -/
structure Env where
  absPath : Except String String
  mkdirVault : Except String Unit
  mkdirObsidian : Except String Unit
  vaultID : Except String String
  tmpl : String → Option String
  writeFails : String → Bool
  registry : RegistryEnv

/-- The shared mutable state `generateVault` touches: the vault file tree
and the registry file. -/
structure SysState where
  fs : FileSys
  registry : RegistryState

/-- `generateVault(cmd, args)` (src/main.go lines 61-130, identical flow
in src/unnamed/part_000 lines 66-135 and src/unnamed/part_001 lines
50-95): resolve path, create the vault directory, create `.obsidian`,
generate the ID, write config documents, write the starter document,
register globally.  Each failure returns at once with that phase's
wrapped error.  The returned list records the phases started, in order;
the returned state keeps everything earlier phases wrote. -/
def generateVault (env : Env) (st : SysState) :
    Except WrappedError (String × String) × SysState × List Phase :=
  match env.absPath with
  | .error e =>
    (.error ⟨phaseContext .resolvePath, e⟩, st, [.resolvePath])
  | .ok absVaultPath =>
    match env.mkdirVault with
    | .error e =>
      (.error ⟨phaseContext .mkdirVault, e⟩, st,
        [.resolvePath, .mkdirVault])
    | .ok _ =>
      match env.mkdirObsidian with
      | .error e =>
        (.error ⟨phaseContext .mkdirObsidian, e⟩, st,
          [.resolvePath, .mkdirVault, .mkdirObsidian])
      | .ok _ =>
        match env.vaultID with
        | .error e =>
          (.error ⟨phaseContext .genVaultId, e⟩, st,
            [.resolvePath, .mkdirVault, .mkdirObsidian, .genVaultId])
        | .ok vaultID =>
          let obsidianDir := joinPath absVaultPath (".obsidian")
          match createObsidianFiles env.tmpl env.writeFails obsidianDir st.fs with
          | (.error e, fs1) =>
            (.error ⟨phaseContext .obsidianFiles, e⟩, ⟨fs1, st.registry⟩,
              [.resolvePath, .mkdirVault, .mkdirObsidian, .genVaultId,
               .obsidianFiles])
          | (.ok _, fs1) =>
            match createInitialFiles env.tmpl env.writeFails absVaultPath fs1 with
            | (.error e, fs2) =>
              (.error ⟨phaseContext .initialFiles, e⟩, ⟨fs2, st.registry⟩,
                [.resolvePath, .mkdirVault, .mkdirObsidian, .genVaultId,
                 .obsidianFiles, .initialFiles])
            | (.ok _, fs2) =>
              match updateGlobalConfig env.registry absVaultPath vaultID
                  st.registry with
              | (.error e, reg1) =>
                (.error ⟨phaseContext .globalConfig, e.message⟩, ⟨fs2, reg1⟩,
                  phaseOrder)
              | (.ok _, reg1) =>
                (.ok (absVaultPath, vaultID), ⟨fs2, reg1⟩, phaseOrder)

/-- The exact file population a successful vault creation leaves on a
clean filesystem, as a lookup function: the starter document `Welcome.md`
in the vault root, the five fixed JSON documents in the hidden
`.obsidian` subdirectory — each with the Template Source's blob for its
name — and nothing else. -/
def expectedVaultFiles (tmpl : String → Option String)
    (absVaultPath path : String) : Option String :=
  if path = joinPath absVaultPath ("Welcome.md") then
    tmpl ("templates/Welcome.md")
  else if path = joinPath (joinPath absVaultPath (".obsidian")) "workspace.json"
    then tmpl ("templates/workspace.json")
  else if path = joinPath (joinPath absVaultPath (".obsidian")) "graph.json"
    then tmpl ("templates/graph.json")
  else if path = joinPath (joinPath absVaultPath (".obsidian"))
      ("core-plugins.json")
    then tmpl ("templates/core-plugins.json")
  else if path = joinPath (joinPath absVaultPath (".obsidian"))
      ("appearance.json")
    then tmpl ("templates/appearance.json")
  else if path = joinPath (joinPath absVaultPath (".obsidian")) "app.json"
    then tmpl ("templates/app.json")
  else none

/-! Helper lemmas about the association-list map operations and the
JSON encode/decode pair. -/

theorem mapLookup_nil {α : Type} (k : String) :
    mapLookup k ([] : List (String × α)) = none := rfl

theorem mapLookup_cons {α : Type} (k : String) (p : String × α)
    (t : List (String × α)) :
    mapLookup k (p :: t) = if p.1 = k then some p.2 else mapLookup k t := by
  unfold mapLookup
  rw [List.find?_cons]
  by_cases h : p.1 = k
  · simp [h]
  · have hb : (p.1 == k) = false := by simp [h]
    rw [hb, if_neg h]

theorem mapLookup_append {α : Type} (k : String) (m1 m2 : List (String × α)) :
    mapLookup k (m1 ++ m2) = (mapLookup k m1).or (mapLookup k m2) := by
  unfold mapLookup
  rw [List.find?_append]
  cases m1.find? (fun p => p.1 == k) <;> simp

theorem mapLookup_filter_ne {α : Type} (k k' : String) (h : k' ≠ k)
    (m : List (String × α)) :
    mapLookup k' (m.filter (fun p => p.1 != k)) = mapLookup k' m := by
  induction m with
  | nil => rfl
  | cons p t ih =>
    rw [List.filter_cons]
    by_cases hp : p.1 = k
    · have hb : (p.1 != k) = false := by simp [hp]
      rw [hb]
      simp only [Bool.false_eq_true, if_false]
      rw [ih, mapLookup_cons, if_neg (fun hh => h ((hp.symm.trans hh).symm))]
    · have hb : (p.1 != k) = true := by simp [hp]
      rw [hb]
      simp only [if_true]
      rw [mapLookup_cons, mapLookup_cons, ih]

theorem mapLookup_insert {α : Type} (k k' : String) (v : α)
    (m : List (String × α)) :
    mapLookup k' (mapInsert k v m) =
      if k' = k then some v else mapLookup k' m := by
  have hins : mapInsert k v m = m.filter (fun p => p.1 != k) ++ [(k, v)] := rfl
  rw [hins, mapLookup_append]
  by_cases h : k' = k
  · subst h
    have hnone : mapLookup k' (m.filter (fun p => p.1 != k')) = none := by
      unfold mapLookup
      have : (m.filter (fun p => p.1 != k')).find? (fun p => p.1 == k')
          = none := by
        rw [List.find?_eq_none]
        intro x hx
        have hmem := List.of_mem_filter hx
        simp only [bne_iff_ne, ne_eq] at hmem
        simp [hmem]
      rw [this]
      rfl
    rw [hnone, if_pos rfl]
    simp [mapLookup_cons]
  · rw [mapLookup_filter_ne k k' h, if_neg h]
    have hone : mapLookup k' [(k, v)] = none := by
      rw [mapLookup_cons, if_neg (fun hh => h hh.symm)]
      rfl
    rw [hone]
    cases mapLookup k' m <;> rfl

theorem mapLookup_insert_isSome {α : Type} {k' : String}
    {m : List (String × α)} (k : String) (v : α)
    (h : (mapLookup k' m).isSome = true) :
    (mapLookup k' (mapInsert k v m)).isSome = true := by
  rw [mapLookup_insert]
  split <;> simp_all

theorem decodeVaultConfig_encode (r : VaultConfig) :
    decodeVaultConfig (encodeVaultConfig r) = some r := rfl

theorem foldlM_applyVaultEntry_encode (v : List (String × VaultConfig)) :
    ∀ m0 : List (String × VaultConfig),
      (v.map (fun p => (p.1, encodeVaultConfig p.2))).foldlM applyVaultEntry m0
        = some (v.foldl (fun m p => mapInsert p.1 p.2 m) m0) := by
  induction v with
  | nil => intro m0; rfl
  | cons p t ih =>
    intro m0
    simp only [List.map_cons, List.foldlM_cons, applyVaultEntry,
      decodeVaultConfig_encode, List.foldl_cons]
    exact ih (mapInsert p.1 p.2 m0)

theorem foldlM_applySchemeField_encode (v : List (String × Bool)) :
    ∀ m0 : List (String × Bool),
      (v.map (fun p => (p.1, Json.bool p.2))).foldlM applySchemeField m0
        = some (v.foldl (fun m p => mapInsert p.1 p.2 m) m0) := by
  induction v with
  | nil => intro m0; rfl
  | cons p t ih =>
    intro m0
    simp only [List.map_cons, List.foldlM_cons, applySchemeField,
      List.foldl_cons]
    exact ih (mapInsert p.1 p.2 m0)

theorem applyConfigField_vaults (c : ObsidianConfig)
    (entries : List (String × Json)) :
    applyConfigField c ("vaults", .obj entries)
      = match entries.foldlM applyVaultEntry (c.Vaults.getD []) with
        | none => none
        | some m => some { c with Vaults := some m } := rfl

theorem applyConfigField_schemes (c : ObsidianConfig)
    (entries : List (String × Json)) :
    applyConfigField c ("openSchemes", .obj entries)
      = match entries.foldlM applySchemeField (c.OpenSchemes.getD []) with
        | none => none
        | some m => some { c with OpenSchemes := some m } := rfl

theorem decodeConfig_encodeConfig (vaults : List (String × VaultConfig))
    (schemes : List (String × Bool)) :
    decodeConfig (encodeConfig vaults schemes)
      = some ⟨some (vaults.foldl (fun m p => mapInsert p.1 p.2 m) []),
              some (schemes.foldl (fun m p => mapInsert p.1 p.2 m) [])⟩ := by
  simp only [decodeConfig, encodeConfig, List.foldlM_cons, List.foldlM_nil,
    applyConfigField_vaults, applyConfigField_schemes, Option.getD_none]
  rw [foldlM_applyVaultEntry_encode]
  simp [foldlM_applySchemeField_encode]

theorem mapLookup_foldl_insert_last {α : Type} (k : String) (v : α)
    (pv : List (String × α)) :
    mapLookup k
      ((mapInsert k v pv).foldl (fun m p => mapInsert p.1 p.2 m) [])
      = some v := by
  have hins : mapInsert k v pv = pv.filter (fun p => p.1 != k) ++ [(k, v)] :=
    rfl
  rw [hins, List.foldl_append]
  simp only [List.foldl_cons, List.foldl_nil]
  rw [mapLookup_insert]
  simp

/-! Claim theorems. -/

/-- C1: for every prior registry file whose bytes fail to parse as a
well-formed Registry document, registering fails with `RegistryCorrupt`
and the registry file's contents are exactly what they were before the
call — no partial recovery, no silent reset. -/
theorem register_corrupt_fails_and_preserves_file
    (env : RegistryEnv) (vaultPath vaultID : String) (d : FileData)
    (st : RegistryState) (cfgDir : String)
    (hcfg : env.userConfigDir = .ok cfgDir)
    (hmk : env.mkdir = .ok ())
    (hio : env.readIoError = false)
    (hfile : st.file = some d)
    (hbad : decodeFile d = none) :
    updateGlobalConfig env vaultPath vaultID st
      = (.error .registryCorrupt, st) := by
  simp only [updateGlobalConfig, hcfg, hmk, hio, hfile, hbad,
    Bool.false_eq_true, if_false]

/-- Witness for C1 at a concrete corrupt registry file. -/
theorem register_corrupt_fails_and_preserves_file_witness :
    updateGlobalConfig ⟨.ok ("/home/user/.config"), .ok (), false, true⟩
        ("/tmp/vault") ("0123456789abcdef") ⟨some (.invalid ("not json"))⟩
      = (.error .registryCorrupt, ⟨some (.invalid ("not json"))⟩) :=
  register_corrupt_fails_and_preserves_file _ _ _ _ _ ("/home/user/.config")
    rfl rfl rfl rfl rfl

/-- C2: with no prior registry file, registering succeeds and writes a
registry holding exactly the one just-inserted record and the default
scheme mapping; and the nil-map initialization installs the empty vault
map, resp. the scheme defaults, exactly when the parsed map is
absent/null. -/
theorem register_fresh_writes_defaults
    (env : RegistryEnv) (vaultPath vaultID : String)
    (st : RegistryState) (cfgDir : String)
    (hcfg : env.userConfigDir = .ok cfgDir)
    (hmk : env.mkdir = .ok ())
    (hio : env.readIoError = false)
    (hfile : st.file = none)
    (hw : env.writeOk = true) :
    updateGlobalConfig env vaultPath vaultID st
      = (.ok (), ⟨some (.json (encodeConfig
          [(vaultID, newRecord vaultPath)] defaultOpenSchemes))⟩)
    ∧ (∀ c : ObsidianConfig, c.Vaults = none → normalizeVaults c = [])
    ∧ (∀ c : ObsidianConfig, c.OpenSchemes = none →
        normalizeSchemes c = defaultOpenSchemes) := by
  refine ⟨?_, ?_, ?_⟩
  · simp only [updateGlobalConfig, hcfg, hmk, hio, hfile, hw,
      Bool.false_eq_true, if_false, if_true]
    rfl
  · intro c h
    unfold normalizeVaults
    rw [h]
    rfl
  · intro c h
    unfold normalizeSchemes
    rw [h]
    rfl

/-- Witness for C2 at a concrete fresh state. -/
theorem register_fresh_writes_defaults_witness :
    updateGlobalConfig ⟨.ok ("/home/user/.config"), .ok (), false, true⟩
        ("/tmp/vault") ("feedc0de00000001") ⟨none⟩
      = (.ok (), ⟨some (.json (encodeConfig
          [("feedc0de00000001", newRecord ("/tmp/vault"))]
          defaultOpenSchemes))⟩)
    ∧ (∀ c : ObsidianConfig, c.Vaults = none → normalizeVaults c = [])
    ∧ (∀ c : ObsidianConfig, c.OpenSchemes = none →
        normalizeSchemes c = defaultOpenSchemes) :=
  register_fresh_writes_defaults _ _ _ _ ("/home/user/.config")
    rfl rfl rfl rfl rfl

/-- C3: for every well-formed prior registry, the written vault mapping is
the prior mapping with `vaultID` bound to the new record: every record
under another key is looked up unchanged, and an existing binding of
`vaultID` is silently overwritten. -/
theorem register_preserves_other_records
    (env : RegistryEnv) (vaultPath vaultID : String) (d : FileData)
    (c : ObsidianConfig) (st : RegistryState) (cfgDir : String)
    (hcfg : env.userConfigDir = .ok cfgDir)
    (hmk : env.mkdir = .ok ())
    (hio : env.readIoError = false)
    (hfile : st.file = some d)
    (hc : decodeFile d = some c)
    (hw : env.writeOk = true) :
    updateGlobalConfig env vaultPath vaultID st
      = (.ok (), ⟨some (.json (encodeConfig
          (mapInsert vaultID (newRecord vaultPath) (normalizeVaults c))
          (normalizeSchemes c)))⟩)
    ∧ (∀ k, k ≠ vaultID →
        mapLookup k (mapInsert vaultID (newRecord vaultPath)
            (normalizeVaults c))
          = mapLookup k (normalizeVaults c))
    ∧ mapLookup vaultID (mapInsert vaultID (newRecord vaultPath)
          (normalizeVaults c))
        = some (newRecord vaultPath) := by
  refine ⟨?_, ?_, ?_⟩
  · simp only [updateGlobalConfig, hcfg, hmk, hio, hfile, hc, hw,
      Bool.false_eq_true, if_false, if_true]
  · intro k hk
    rw [mapLookup_insert, if_neg hk]
  · rw [mapLookup_insert, if_pos rfl]

/-- Witness for C3: a prior registry with one record under key `aaaa`;
registering under `bbbb` keeps the `aaaa` record and binds `bbbb`. -/
theorem register_preserves_other_records_witness :
    updateGlobalConfig ⟨.ok ("/home/user/.config"), .ok (), false, true⟩
        ("/new/vault") ("bbbb")
        ⟨some (.json (.obj [("vaults", .obj [("aaaa",
          .obj [("path", .str ("/old/vault")), ("ts", .num 5),
                ("open", .bool false)])])]))⟩
      = (.ok (), ⟨some (.json (encodeConfig
          (mapInsert ("bbbb") (newRecord ("/new/vault"))
            (normalizeVaults ⟨some [("aaaa", ⟨"/old/vault", 5, false⟩)],
              none⟩))
          (normalizeSchemes ⟨some [("aaaa", ⟨"/old/vault", 5, false⟩)],
            none⟩)))⟩)
    ∧ mapLookup ("aaaa")
        (mapInsert ("bbbb") (newRecord ("/new/vault"))
          (normalizeVaults ⟨some [("aaaa", ⟨"/old/vault", 5, false⟩)],
            none⟩))
      = mapLookup ("aaaa")
          (normalizeVaults ⟨some [("aaaa", ⟨"/old/vault", 5, false⟩)],
            none⟩)
    ∧ mapLookup ("bbbb")
        (mapInsert ("bbbb") (newRecord ("/new/vault"))
          (normalizeVaults ⟨some [("aaaa", ⟨"/old/vault", 5, false⟩)],
            none⟩))
      = some (newRecord ("/new/vault")) := by
  obtain ⟨h1, h2, h3⟩ := register_preserves_other_records
    ⟨.ok ("/home/user/.config"), .ok (), false, true⟩
    ("/new/vault") ("bbbb")
    (.json (.obj [("vaults", .obj [("aaaa",
      .obj [("path", .str ("/old/vault")), ("ts", .num 5),
            ("open", .bool false)])])]))
    ⟨some [("aaaa", ⟨"/old/vault", 5, false⟩)], none⟩
    ⟨some (.json (.obj [("vaults", .obj [("aaaa",
      .obj [("path", .str ("/old/vault")), ("ts", .num 5),
            ("open", .bool false)])])]))⟩
    ("/home/user/.config") rfl rfl rfl rfl rfl rfl
  exact ⟨h1, h2 ("aaaa") (by decide), h3⟩

/-- C10: whenever the prior registry parses with a non-null `openSchemes`
mapping — even empty or all-false — that mapping is written back
completely unchanged; the defaults are never merged into it. -/
theorem register_keeps_existing_schemes
    (env : RegistryEnv) (vaultPath vaultID : String) (d : FileData)
    (c : ObsidianConfig) (m : List (String × Bool)) (st : RegistryState)
    (cfgDir : String)
    (hcfg : env.userConfigDir = .ok cfgDir)
    (hmk : env.mkdir = .ok ())
    (hio : env.readIoError = false)
    (hfile : st.file = some d)
    (hc : decodeFile d = some c)
    (hs : c.OpenSchemes = some m)
    (hw : env.writeOk = true) :
    updateGlobalConfig env vaultPath vaultID st
      = (.ok (), ⟨some (.json (encodeConfig
          (mapInsert vaultID (newRecord vaultPath) (normalizeVaults c))
          m))⟩) := by
  have hns : normalizeSchemes c = m := by
    unfold normalizeSchemes
    rw [hs]
    rfl
  simp only [updateGlobalConfig, hcfg, hmk, hio, hfile, hc, hw, hns,
    Bool.false_eq_true, if_false, if_true]

/-- Witness for C10: a prior registry whose scheme map is present and maps
`vscode` to `false`; it is written back as-is, defaults not merged. -/
theorem register_keeps_existing_schemes_witness :
    updateGlobalConfig ⟨.ok ("/home/user/.config"), .ok (), false, true⟩
        ("/tmp/vault") ("cafe")
        ⟨some (.json (.obj [("openSchemes",
          .obj [("vscode", .bool false)])]))⟩
      = (.ok (), ⟨some (.json (encodeConfig
          (mapInsert ("cafe") (newRecord ("/tmp/vault"))
            (normalizeVaults ⟨none, some [("vscode", false)]⟩))
          [("vscode", false)]))⟩) :=
  register_keeps_existing_schemes _ _ _
    (.json (.obj [("openSchemes", .obj [("vscode", .bool false)])]))
    ⟨none, some [("vscode", false)]⟩ [("vscode", false)] _
    ("/home/user/.config") rfl rfl rfl rfl rfl rfl rfl

/-- C4: round-trip — after a successful registration, decoding the file
that was written yields a registry whose vault map binds `vaultID` to the
inserted record, whose path is exactly `vaultPath` and whose open flag is
`true`. -/
theorem register_roundtrip
    (env : RegistryEnv) (vaultPath vaultID : String)
    (st st' : RegistryState)
    (h : updateGlobalConfig env vaultPath vaultID st = (.ok (), st')) :
    (st'.file.bind decodeFile).bind
        (fun c => mapLookup vaultID (c.Vaults.getD []))
      = some (newRecord vaultPath)
    ∧ (newRecord vaultPath).Path = vaultPath
    ∧ (newRecord vaultPath).Open = true := by
  refine ⟨?_, rfl, rfl⟩
  unfold updateGlobalConfig at h
  cases hcfg : env.userConfigDir with
  | error e => rw [hcfg] at h; exact absurd (congrArg Prod.fst h) (by simp)
  | ok cfgDir =>
  rw [hcfg] at h
  cases hmk : env.mkdir with
  | error e => rw [hmk] at h; exact absurd (congrArg Prod.fst h) (by simp)
  | ok u =>
  rw [hmk] at h
  cases hio : env.readIoError with
  | true => rw [hio] at h; exact absurd (congrArg Prod.fst h) (by simp)
  | false =>
  rw [hio] at h
  simp only [Bool.false_eq_true, if_false] at h
  cases hfile : st.file with
  | none =>
    simp only [hfile] at h
    cases hw : env.writeOk with
    | false =>
      simp only [hw, Bool.false_eq_true, if_false] at h
      exact absurd (congrArg Prod.fst h) (by simp)
    | true =>
      simp only [hw, eq_self_iff_true, if_true] at h
      have hst : st' = ⟨some (.json (encodeConfig
          (mapInsert vaultID (newRecord vaultPath)
            (normalizeVaults ⟨none, none⟩))
          (normalizeSchemes ⟨none, none⟩)))⟩ :=
        ((Prod.mk.injEq _ _ _ _).mp h).2.symm
      rw [hst]
      simp only [Option.bind_some, Option.some_bind, decodeFile, parseFile,
        decodeConfig_encodeConfig]
      exact mapLookup_foldl_insert_last _ _ _
  | some d =>
    simp only [hfile] at h
    cases hd : decodeFile d with
    | none =>
      simp only [hd] at h
      exact absurd (congrArg Prod.fst h) (by simp)
    | some c =>
      simp only [hd] at h
      cases hw : env.writeOk with
      | false =>
        simp only [hw, Bool.false_eq_true, if_false] at h
        exact absurd (congrArg Prod.fst h) (by simp)
      | true =>
        simp only [hw, eq_self_iff_true, if_true] at h
        have hst : st' = ⟨some (.json (encodeConfig
            (mapInsert vaultID (newRecord vaultPath) (normalizeVaults c))
            (normalizeSchemes c)))⟩ :=
          ((Prod.mk.injEq _ _ _ _).mp h).2.symm
        rw [hst]
        simp only [Option.bind_some, Option.some_bind, decodeFile, parseFile,
          decodeConfig_encodeConfig]
        exact mapLookup_foldl_insert_last _ _ _

/-- Witness for C4 at a concrete successful registration over an absent
registry file. -/
theorem register_roundtrip_witness :
    ((⟨some (.json (encodeConfig [("cafe", newRecord ("/tmp/vault"))]
          defaultOpenSchemes))⟩ : RegistryState).file.bind decodeFile).bind
        (fun c => mapLookup ("cafe") (c.Vaults.getD []))
      = some (newRecord ("/tmp/vault"))
    ∧ (newRecord ("/tmp/vault")).Path = "/tmp/vault"
    ∧ (newRecord ("/tmp/vault")).Open = true :=
  register_roundtrip ⟨.ok ("/home/user/.config"), .ok (), false, true⟩
    ("/tmp/vault") ("cafe") ⟨none⟩
    ⟨some (.json (encodeConfig [("cafe", newRecord ("/tmp/vault"))]
      defaultOpenSchemes))⟩ rfl

/-- C9 counterexample: at current time 42, every source variant — not all
but one — stores the fixed literal `1757173820641`, which is not 42: no
variant records the actual creation time, refuting the claim that the
other variant does. -/
theorem registeredAt_no_variant_uses_clock :
    registeredAtOf Variant.mainGo 42 = 1757173820641
    ∧ registeredAtOf Variant.part000 42 = 1757173820641
    ∧ registeredAtOf Variant.part001 42 = 1757173820641
    ∧ ¬ (1757173820641 : Int) = 42 := by
  refine ⟨rfl, rfl, rfl, ?_⟩
  norm_num

/-- C9 amended: every source variant stores the constant literal
`1757173820641` as the `registeredAt` timestamp, whatever the actual
current time is. -/
theorem registeredAt_constant_all_variants :
    ∀ (v : Variant) (now : Int), registeredAtOf v now = tsLiteral := by
  intro v now
  cases v <;> rfl

theorem hexBytes_length (bs : List Nat) :
    (hexBytes bs).length = 2 * bs.length := by
  induction bs with
  | nil => rfl
  | cons b t ih =>
    simp only [hexBytes, List.length_cons, ih]
    omega

theorem hexDigit_lower : ∀ n, n < 16 → isLowerHexDigit (hexDigit n) = true := by
  decide

theorem hexBytes_all_lower (bs : List Nat) (hbytes : ∀ b ∈ bs, b < 256) :
    (hexBytes bs).all isLowerHexDigit = true := by
  induction bs with
  | nil => rfl
  | cons b t ih =>
    have hb : b < 256 := hbytes b (List.mem_cons_self b t)
    have h1 : b / 16 < 16 := Nat.div_lt_of_lt_mul (by omega)
    have h2 : b % 16 < 16 := Nat.mod_lt _ (by omega)
    simp only [hexBytes, List.all_cons, hexDigit_lower _ h1,
      hexDigit_lower _ h2, Bool.true_and]
    exact ih (fun x hx => hbytes x (List.mem_cons_of_mem b hx))

/-- C6: every successful `generateVaultID` (crypto/rand variant,
src/unnamed/part_000 lines 137-150) returns exactly the lowercase-hex,
separator-free encoding of the 8 random bytes read: 16 characters, each a
lowercase hexadecimal digit — including when the bytes have leading
zeros, since each byte contributes exactly two zero-padded digits. -/
theorem generateVaultID_success_hex
    (bs : List Nat) (s : String)
    (h : generateVaultIDRand (.ok bs) = .ok s)
    (hlen : bs.length = 8)
    (hbytes : ∀ b ∈ bs, b < 256) :
    s = hexEncode bs ∧ s.length = 16
      ∧ s.data.all isLowerHexDigit = true := by
  have hs : hexEncode bs = s := by
    exact (Except.ok.injEq _ _).mp h
  refine ⟨hs.symm, ?_, ?_⟩
  · rw [← hs]
    show (hexBytes bs).length = 16
    rw [hexBytes_length, hlen]
  · rw [← hs]
    show (hexBytes bs).all isLowerHexDigit = true
    exact hexBytes_all_lower bs hbytes

/-- Witness for C6 with leading zero bytes. -/
theorem generateVaultID_success_hex_witness :
    ("00010203040506ff" : String) = hexEncode [0, 1, 2, 3, 4, 5, 6, 255]
    ∧ ("00010203040506ff" : String).length = 16
    ∧ ("00010203040506ff" : String).data.all isLowerHexDigit = true :=
  generateVaultID_success_hex [0, 1, 2, 3, 4, 5, 6, 255]
    ("00010203040506ff") rfl rfl (by decide)

theorem writeTemplateFiles_preserves (tmpl : String → Option String)
    (wf : String → Bool) (dir : String) (names : List String) :
    ∀ (fs : FileSys) (k : String), (mapLookup k fs).isSome = true →
      (mapLookup k (writeTemplateFiles tmpl wf dir names fs).2).isSome
        = true := by
  induction names with
  | nil => intro fs k h; exact h
  | cons n rest ih =>
    intro fs k h
    unfold writeTemplateFiles
    cases htm : tmpl ("templates/" ++ n) with
    | none => exact h
    | some content =>
      by_cases hw : wf (joinPath dir n) = true
      · simp only [hw, if_true]
        exact h
      · simp only [hw, if_false]
        exact ih _ k (mapLookup_insert_isSome _ _ h)

/-- C5: a successful vault creation on a clean filesystem leaves exactly
the starter document in the vault root and exactly the five fixed JSON
documents in the hidden configuration subdirectory, each byte-identical
to the Template Source's blob for its name — and no other file. -/
theorem createVault_exact_files
    (env : Env) (st : SysState) (absVaultPath vaultID : String)
    (a1 a2 a3 a4 a5 w : String)
    (habs : env.absPath = .ok absVaultPath)
    (hm1 : env.mkdirVault = .ok ())
    (hm2 : env.mkdirObsidian = .ok ())
    (hid : env.vaultID = .ok vaultID)
    (ht1 : env.tmpl ("templates/app.json") = some a1)
    (ht2 : env.tmpl ("templates/appearance.json") = some a2)
    (ht3 : env.tmpl ("templates/core-plugins.json") = some a3)
    (ht4 : env.tmpl ("templates/graph.json") = some a4)
    (ht5 : env.tmpl ("templates/workspace.json") = some a5)
    (ht6 : env.tmpl ("templates/Welcome.md") = some w)
    (hwf : ∀ p, env.writeFails p = false)
    (hclean : st.fs = [])
    (hreg : (updateGlobalConfig env.registry absVaultPath vaultID
        st.registry).1 = .ok ()) :
    (generateVault env st).1 = .ok (absVaultPath, vaultID)
    ∧ ∀ path, mapLookup path (generateVault env st).2.1.fs
        = expectedVaultFiles env.tmpl absVaultPath path := by
  cases hu : updateGlobalConfig env.registry absVaultPath vaultID st.registry
    with
  | mk res reg1 =>
  rw [hu] at hreg
  simp only at hreg
  subst hreg
  have hgen : generateVault env st
      = (.ok (absVaultPath, vaultID),
         ⟨mapInsert (joinPath absVaultPath ("Welcome.md")) w
            (mapInsert (joinPath (joinPath absVaultPath (".obsidian"))
                ("workspace.json")) a5
              (mapInsert (joinPath (joinPath absVaultPath (".obsidian"))
                  ("graph.json")) a4
                (mapInsert (joinPath (joinPath absVaultPath (".obsidian"))
                    ("core-plugins.json")) a3
                  (mapInsert (joinPath (joinPath absVaultPath (".obsidian"))
                      ("appearance.json")) a2
                    (mapInsert (joinPath (joinPath absVaultPath (".obsidian"))
                        ("app.json")) a1 []))))),
          reg1⟩,
         phaseOrder) := by
    unfold generateVault
    have e1 : ("templates/" ++ "app.json" : String) = "templates/app.json" :=
      rfl
    have e2 : ("templates/" ++ "appearance.json" : String)
        = "templates/appearance.json" := rfl
    have e3 : ("templates/" ++ "core-plugins.json" : String)
        = "templates/core-plugins.json" := rfl
    have e4 : ("templates/" ++ "graph.json" : String)
        = "templates/graph.json" := rfl
    have e5 : ("templates/" ++ "workspace.json" : String)
        = "templates/workspace.json" := rfl
    have e6 : ("templates/" ++ "Welcome.md" : String)
        = "templates/Welcome.md" := rfl
    simp only [habs, hm1, hm2, hid, hclean, createObsidianFiles,
      createInitialFiles, obsidianTemplateNames, writeTemplateFiles,
      e1, e2, e3, e4, e5, e6, ht1, ht2, ht3, ht4, ht5, ht6, hwf,
      Bool.false_eq_true, if_false, hu]
  rw [hgen]
  refine ⟨rfl, ?_⟩
  intro path
  simp only [expectedVaultFiles, mapLookup_insert, mapLookup_nil,
    ht1, ht2, ht3, ht4, ht5, ht6]

/-- Witness for C5: a concrete all-succeeding environment; the starter
document and one config document are present with their template blobs,
and an unrelated path is absent. -/
theorem createVault_exact_files_witness :
    (generateVault
        ⟨.ok ("/vault"), .ok (), .ok (), .ok ("cafebabe00000000"),
         fun n => some (n ++ "-blob"), fun _ => false,
         ⟨.ok ("/cfg"), .ok (), false, true⟩⟩
        ⟨[], ⟨none⟩⟩).1
      = .ok ("/vault", "cafebabe00000000")
    ∧ mapLookup ("/vault/Welcome.md")
        (generateVault
          ⟨.ok ("/vault"), .ok (), .ok (), .ok ("cafebabe00000000"),
           fun n => some (n ++ "-blob"), fun _ => false,
           ⟨.ok ("/cfg"), .ok (), false, true⟩⟩
          ⟨[], ⟨none⟩⟩).2.1.fs
      = some ("templates/Welcome.md-blob")
    ∧ mapLookup ("/vault/.obsidian/app.json")
        (generateVault
          ⟨.ok ("/vault"), .ok (), .ok (), .ok ("cafebabe00000000"),
           fun n => some (n ++ "-blob"), fun _ => false,
           ⟨.ok ("/cfg"), .ok (), false, true⟩⟩
          ⟨[], ⟨none⟩⟩).2.1.fs
      = some ("templates/app.json-blob")
    ∧ mapLookup ("/etc/hosts")
        (generateVault
          ⟨.ok ("/vault"), .ok (), .ok (), .ok ("cafebabe00000000"),
           fun n => some (n ++ "-blob"), fun _ => false,
           ⟨.ok ("/cfg"), .ok (), false, true⟩⟩
          ⟨[], ⟨none⟩⟩).2.1.fs
      = none := by
  obtain ⟨hok, hall⟩ := createVault_exact_files
    ⟨.ok ("/vault"), .ok (), .ok (), .ok ("cafebabe00000000"),
     fun n => some (n ++ "-blob"), fun _ => false,
     ⟨.ok ("/cfg"), .ok (), false, true⟩⟩
    ⟨[], ⟨none⟩⟩ ("/vault") ("cafebabe00000000")
    ("templates/app.json-blob") ("templates/appearance.json-blob")
    ("templates/core-plugins.json-blob") ("templates/graph.json-blob")
    ("templates/workspace.json-blob") ("templates/Welcome.md-blob")
    rfl rfl rfl rfl rfl rfl rfl rfl rfl rfl (fun p => rfl) rfl rfl
  refine ⟨hok, ?_, ?_, ?_⟩
  · rw [hall]; rfl
  · rw [hall]; rfl
  · rw [hall]; rfl

/-- C8: `generateVault` runs its phases in the fixed order resolve path,
create vault directory, create `.obsidian`, generate ID, write config
documents, write starter document, register globally.  Any failure aborts
at once: the list of started phases is a non-empty prefix of that order,
the one reported error is wrapped with the failing (= last started)
phase's context, success means every phase ran, and nothing is rolled
back — every file present before the call is still present after it. -/
theorem generateVault_phase_discipline (env : Env) (st : SysState) :
    ((generateVault env st).2.2 ≠ []
      ∧ (generateVault env st).2.2
          = phaseOrder.take (generateVault env st).2.2.length)
    ∧ (∀ e, (generateVault env st).1 = .error e →
        ∃ p, (generateVault env st).2.2.getLast? = some p
          ∧ e.context = phaseContext p)
    ∧ (∀ v, (generateVault env st).1 = .ok v →
        (generateVault env st).2.2 = phaseOrder)
    ∧ (∀ k, (mapLookup k st.fs).isSome = true →
        (mapLookup k (generateVault env st).2.1.fs).isSome = true) := by
  cases habs : env.absPath with
  | error e0 =>
    have hgen : generateVault env st
        = (.error ⟨phaseContext .resolvePath, e0⟩, st, [.resolvePath]) := by
      unfold generateVault
      simp only [habs]
    rw [hgen]
    exact ⟨⟨by simp, rfl⟩,
      fun e he => ⟨.resolvePath, rfl, by injection he with h2; rw [← h2]⟩,
      fun v hv => Except.noConfusion hv,
      fun k h => h⟩
  | ok absVaultPath =>
  cases hmk : env.mkdirVault with
  | error e0 =>
    have hgen : generateVault env st
        = (.error ⟨phaseContext .mkdirVault, e0⟩, st,
           [.resolvePath, .mkdirVault]) := by
      unfold generateVault
      simp only [habs, hmk]
    rw [hgen]
    exact ⟨⟨by simp, rfl⟩,
      fun e he => ⟨.mkdirVault, rfl, by injection he with h2; rw [← h2]⟩,
      fun v hv => Except.noConfusion hv,
      fun k h => h⟩
  | ok u1 =>
  cases hmo : env.mkdirObsidian with
  | error e0 =>
    have hgen : generateVault env st
        = (.error ⟨phaseContext .mkdirObsidian, e0⟩, st,
           [.resolvePath, .mkdirVault, .mkdirObsidian]) := by
      unfold generateVault
      simp only [habs, hmk, hmo]
    rw [hgen]
    exact ⟨⟨by simp, rfl⟩,
      fun e he => ⟨.mkdirObsidian, rfl, by injection he with h2; rw [← h2]⟩,
      fun v hv => Except.noConfusion hv,
      fun k h => h⟩
  | ok u2 =>
  cases hid : env.vaultID with
  | error e0 =>
    have hgen : generateVault env st
        = (.error ⟨phaseContext .genVaultId, e0⟩, st,
           [.resolvePath, .mkdirVault, .mkdirObsidian, .genVaultId]) := by
      unfold generateVault
      simp only [habs, hmk, hmo, hid]
    rw [hgen]
    exact ⟨⟨by simp, rfl⟩,
      fun e he => ⟨.genVaultId, rfl, by injection he with h2; rw [← h2]⟩,
      fun v hv => Except.noConfusion hv,
      fun k h => h⟩
  | ok vaultID =>
  cases hco : createObsidianFiles env.tmpl env.writeFails
      (joinPath absVaultPath (".obsidian")) st.fs with
  | mk r1 fs1 =>
  have hfs1 : ∀ k, (mapLookup k st.fs).isSome = true →
      (mapLookup k fs1).isSome = true := by
    intro k hk
    have hh := writeTemplateFiles_preserves env.tmpl env.writeFails
      (joinPath absVaultPath (".obsidian")) obsidianTemplateNames st.fs k hk
    have hco2 : writeTemplateFiles env.tmpl env.writeFails
        (joinPath absVaultPath (".obsidian")) obsidianTemplateNames st.fs
        = (r1, fs1) := hco
    rw [hco2] at hh
    exact hh
  cases r1 with
  | error e0 =>
    have hgen : generateVault env st
        = (.error ⟨phaseContext .obsidianFiles, e0⟩, ⟨fs1, st.registry⟩,
           [.resolvePath, .mkdirVault, .mkdirObsidian, .genVaultId,
            .obsidianFiles]) := by
      unfold generateVault
      simp only [habs, hmk, hmo, hid, hco]
    rw [hgen]
    exact ⟨⟨by simp, rfl⟩,
      fun e he => ⟨.obsidianFiles, rfl, by injection he with h2; rw [← h2]⟩,
      fun v hv => Except.noConfusion hv,
      fun k h => hfs1 k h⟩
  | ok u3 =>
  cases hci : createInitialFiles env.tmpl env.writeFails absVaultPath fs1 with
  | mk r2 fs2 =>
  have hfs2 : ∀ k, (mapLookup k fs1).isSome = true →
      (mapLookup k fs2).isSome = true := by
    intro k hk
    have hh := writeTemplateFiles_preserves env.tmpl env.writeFails
      absVaultPath ["Welcome.md"] fs1 k hk
    have hci2 : writeTemplateFiles env.tmpl env.writeFails absVaultPath
        ["Welcome.md"] fs1 = (r2, fs2) := hci
    rw [hci2] at hh
    exact hh
  cases r2 with
  | error e0 =>
    have hgen : generateVault env st
        = (.error ⟨phaseContext .initialFiles, e0⟩, ⟨fs2, st.registry⟩,
           [.resolvePath, .mkdirVault, .mkdirObsidian, .genVaultId,
            .obsidianFiles, .initialFiles]) := by
      unfold generateVault
      simp only [habs, hmk, hmo, hid, hco, hci]
    rw [hgen]
    exact ⟨⟨by simp, rfl⟩,
      fun e he => ⟨.initialFiles, rfl, by injection he with h2; rw [← h2]⟩,
      fun v hv => Except.noConfusion hv,
      fun k h => hfs2 k (hfs1 k h)⟩
  | ok u4 =>
  cases hg : updateGlobalConfig env.registry absVaultPath vaultID
      st.registry with
  | mk r3 reg1 =>
  cases r3 with
  | error e0 =>
    have hgen : generateVault env st
        = (.error ⟨phaseContext .globalConfig, e0.message⟩, ⟨fs2, reg1⟩,
           phaseOrder) := by
      unfold generateVault
      simp only [habs, hmk, hmo, hid, hco, hci, hg]
    rw [hgen]
    exact ⟨⟨by simp [phaseOrder], rfl⟩,
      fun e he => ⟨.globalConfig, rfl, by injection he with h2; rw [← h2]⟩,
      fun v hv => Except.noConfusion hv,
      fun k h => hfs2 k (hfs1 k h)⟩
  | ok u5 =>
    have hgen : generateVault env st
        = (.ok (absVaultPath, vaultID), ⟨fs2, reg1⟩, phaseOrder) := by
      unfold generateVault
      simp only [habs, hmk, hmo, hid, hco, hci, hg]
    rw [hgen]
    exact ⟨⟨by simp [phaseOrder], rfl⟩,
      fun e he => Except.noConfusion he,
      fun v hv => rfl,
      fun k h => hfs2 k (hfs1 k h)⟩

/-- Witness for C8: with ID generation failing, the reported error is
wrapped with the ID phase's context, which is the last phase started. -/
theorem generateVault_phase_discipline_witness :
    (generateVault
        ⟨.ok ("/v"), .ok (), .ok (), .error ("entropy unavailable"),
         fun _ => none, fun _ => false,
         ⟨.ok ("/cfg"), .ok (), false, true⟩⟩
        ⟨[], ⟨none⟩⟩).1
      = .error ⟨"failed to generate vault ID", "entropy unavailable"⟩
    ∧ ∃ p, ((generateVault
        ⟨.ok ("/v"), .ok (), .ok (), .error ("entropy unavailable"),
         fun _ => none, fun _ => false,
         ⟨.ok ("/cfg"), .ok (), false, true⟩⟩
        ⟨[], ⟨none⟩⟩).2.2).getLast? = some p
        ∧ (⟨"failed to generate vault ID", "entropy unavailable"⟩ :
            WrappedError).context = phaseContext p :=
  ⟨rfl,
   (generateVault_phase_discipline
      ⟨.ok ("/v"), .ok (), .ok (), .error ("entropy unavailable"),
       fun _ => none, fun _ => false,
       ⟨.ok ("/cfg"), .ok (), false, true⟩⟩
      ⟨[], ⟨none⟩⟩).2.1
     ⟨"failed to generate vault ID", "entropy unavailable"⟩ rfl⟩

/-- C7 (code bug, src/main.go lines 132-154 and src/unnamed/part_001 lines
97-112): a short read from `/dev/urandom` delivering only 4 random bytes
with no error is accepted — the returned count is discarded — and the call
returns an identifier built from 4 random bytes and 4 zero bytes instead
of failing. -/
theorem generateVaultIDUrandom_short_read_no_error :
    generateVaultIDUrandom true false [170, 187, 204, 221]
      = .ok ("aabbccdd00000000") := rfl

end PetitePlatypus
